import Mathlib

/-!
# Shallow embedding of the wwa::coro coroutine primitives

This file embeds the coroutine control-flow primitives of the `coro-cpp`
repository (`task.h`, `generator.h`, `async_generator.h`,
`sync_generator_adapter.h`, `eager_task.h`, `detail.h`, `exceptions.h`)
and proves properties of the embedded operations.

A coroutine body is abstracted by the sequence of values it will yield
(resp. the number of internal suspensions it will perform) together with its
final outcome: a normal return or an unhandled exception.  The promise state
(`m_value` / `m_result` / `m_current_value`, `m_exception`), the handle's
`done()` bit, and a count of executed body segments (used to observe side
effects) are explicit fields.  A null `std::coroutine_handle` is `none`.
Thrown C++ exceptions are surfaced as values of type `Err`.
-/

namespace CoroCpp

/-- Abstract payload of an exception thrown by a user coroutine body. -/
abbrev Exn := Nat

/-- Exceptions observable by users of the library: `bad_result_access` and
`bad_task` (`exceptions.h`), or a rethrown user exception. -/
inductive Err where
  | resultNotAvailable
  | badTask
  | bodyExn (e : Exn)
deriving DecidableEq

/-! ## Generator (`generator.h`)

A `generator<Result>` coroutine body is abstracted as the list of values it
will still yield (`yields`), followed by either a normal return
(`tail = none`) or an unhandled exception escaping the body
(`tail = some e`). -/

/-- State of a `generator` coroutine frame together with its
`generator::promise_type` (`generator.h:52`). -/
structure GenCoro (α : Type) where
  /-- Values the body has yet to yield. -/
  yields : List α
  /-- After the yields are exhausted the body returns (`none`) or throws. -/
  tail : Option Exn
  /-- `promise_type::m_value` (`generator.h:194`): pointer to the value
  saved by `yield_value`; null until the first resumption. -/
  m_value : Option α := none
  /-- `promise_type::m_exception` (`generator.h:196`). -/
  m_exception : Option Exn := none
  /-- `coroutine_handle::done()`. -/
  done : Bool := false
  /-- Number of body segments executed so far (side-effect observer). -/
  stepsRun : Nat := 0
deriving DecidableEq

/-- Invoking a generator coroutine function: the frame is created suspended
at the initial suspend point (`initial_suspend` returns
`std::suspend_always`, `generator.h:84`); no body statement has run. -/
def mkGenerator (yields : List α) (tail : Option Exn) : GenCoro α :=
  { yields := yields, tail := tail }

/-- `detail::is_good_handle` (`detail.h:43`) on a generator handle:
non-null and not done. -/
def gen_is_good_handle : Option (GenCoro α) → Bool
  | some c => !c.done
  | none => false

/-- `coroutine_handle::resume()`: run the body to its next suspension point.
If a yield is pending, `yield_value` stores the address of the value
(`generator.h:108`) and the coroutine suspends; otherwise the body
terminates: an unhandled exception is saved by
`promise_type::unhandled_exception` (`generator.h:151`) and the frame stops
at the final suspend point with `done() = true`. -/
def GenCoro.resume (c : GenCoro α) : GenCoro α :=
  match c.yields with
  | v :: rest =>
    { c with yields := rest, m_value := some v, stepsRun := c.stepsRun + 1 }
  | [] =>
    { c with done := true, m_exception := c.tail, stepsRun := c.stepsRun + 1 }

/-- `promise_type::rethrow_if_exception` (`generator.h:185`): rethrows
`std::move(m_exception)`; moving from the `exception_ptr` leaves it null.
Returns (exception thrown, promise state afterwards). -/
def GenCoro.rethrow_if_exception (c : GenCoro α) : Option Exn × GenCoro α :=
  match c.m_exception with
  | some e => (some e, { c with m_exception := none })
  | none => (none, c)

namespace generator

/-- `generator::advance` (`generator.h:457`): if the handle is good, resume
it; if the coroutine finished during that step, rethrow a stored exception.
Returns (exception thrown, state of the owned frame afterwards). -/
def advance (h : Option (GenCoro α)) : Option Exn × Option (GenCoro α) :=
  match h with
  | some c =>
    if c.done then (none, some c)
    else
      let c1 := c.resume
      if c1.done then
        let p := c1.rethrow_if_exception
        (p.1, some p.2)
      else (none, some c1)
  | none => (none, none)

/-- `generator::begin` (`generator.h:401`) applied `n` times: each call runs
`advance()` on the same frame and returns an iterator wrapping `m_coroutine`.
The iterator aliases the generator's frame, so the post-`advance` frame state
is the state seen through the returned iterator. -/
def beginN : Nat → Option (GenCoro α) → Option (GenCoro α)
  | 0, h => h
  | n + 1, h => (advance (beginN n h)).2

/-- `generator::iterator::operator==` (`generator.h:256`) specialised to a
comparison with `end() = iterator(nullptr)` (`generator.h:434`): a non-null
handle is never address-equal to `nullptr`, so the comparison reduces to the
"both handles not good" clause; two null handles are address-equal. -/
def iterIsEnd (h : Option (GenCoro α)) : Bool := !gen_is_good_handle h

/-- `generator::iterator::operator++` (`generator.h:273`): if the handle is
good, resume it and rethrow an exception of a finished frame; otherwise throw
`bad_result_access`.  Returns (exception thrown, frame state afterwards). -/
def iterInc (h : Option (GenCoro α)) : Option Err × Option (GenCoro α) :=
  match h with
  | some c =>
    if c.done then (some .resultNotAvailable, some c)
    else
      let c1 := c.resume
      if c1.done then
        let p := c1.rethrow_if_exception
        (p.1.map .bodyExn, some p.2)
      else (none, some c1)
  | none => (some .resultNotAvailable, none)

/-- `generator::iterator::operator*` (`generator.h:308`): if the handle is
good, return `promise().value()` (the value `m_value` points at); otherwise
throw `bad_result_access`.  Returns (exception thrown, value read). -/
def iterDeref (h : Option (GenCoro α)) : Option Err × Option α :=
  match h with
  | some c =>
    if c.done then (some .resultNotAvailable, none) else (none, c.m_value)
  | none => (some .resultNotAvailable, none)

/-- Range-for iteration over a generator
(`it = begin(); while (it != end()) { use *it; ++it; }`): the iterator
aliases the generator frame, so the loop is a recursion on the frame state;
`begin()` and `operator++` both advance the frame one step and the loop stops
as soon as the frame is finished.  `fuel` bounds the number of pulls; bodies
without exceptions are iterated, so thrown exceptions do not occur. -/
def toList (fuel : Nat) (h : Option (GenCoro α)) : List α :=
  match fuel with
  | 0 => []
  | fuel + 1 =>
    match (advance h).2 with
    | some c =>
      if c.done then []
      else
        match c.m_value with
        | some v => v :: toList fuel (some c)
        | none => []
    | none => []

end generator

/-! ## Task (`task.h`)

A `task<T>` coroutine body is abstracted as the number of internal
suspensions it performs before completing (`pendingSteps`), followed by its
outcome: `co_return v` or an unhandled exception. -/

deriving instance DecidableEq for Except

/-- State of a `task` coroutine frame together with its
`detail::promise_type` (`task.h:95`) / `detail::promise_base` (`task.h:40`). -/
structure TaskCoro (α : Type) where
  /-- Internal suspension points remaining before the body completes. -/
  pendingSteps : Nat
  /-- The body ends with `co_return v` (`.ok v`) or throws (`.error e`). -/
  outcome : Except Exn α
  /-- `promise_type::m_result` (`task.h:169`): empty until `return_value`. -/
  m_result : Option α := none
  /-- `promise_base::m_exception` (`task.h:82`). -/
  m_exception : Option Exn := none
  /-- `coroutine_handle::done()`. -/
  done : Bool := false
  /-- Number of body segments executed so far (side-effect observer). -/
  stepsRun : Nat := 0
deriving DecidableEq

/-- Invoking a task coroutine function: the frame is created suspended at the
initial suspend point (`promise_base::initial_suspend` returns
`std::suspend_always`, `task.h:47`); no body statement has run. -/
def mkTask (pendingSteps : Nat) (outcome : Except Exn α) : TaskCoro α :=
  { pendingSteps := pendingSteps, outcome := outcome }

/-- `detail::is_ready` (`detail.h:59`) on a task handle: null or done. -/
def task_is_ready : Option (TaskCoro α) → Bool
  | some c => c.done
  | none => true

/-- `coroutine_handle::resume()` on a task frame: run the body to its next
internal suspension, or to completion.  On completion `return_value` stores
the result (`task.h:118`) or `promise_base::unhandled_exception` stores the
exception (`task.h:45`), and the frame stops at the final suspend point
(`task.h:49`) with `done() = true`. -/
def TaskCoro.resumeStep (c : TaskCoro α) : TaskCoro α :=
  match c.pendingSteps with
  | n + 1 => { c with pendingSteps := n, stepsRun := c.stepsRun + 1 }
  | 0 =>
    { c with
      done := true
      stepsRun := c.stepsRun + 1
      m_result := match c.outcome with | .ok v => some v | .error _ => none
      m_exception := match c.outcome with | .ok _ => none | .error e => some e }

namespace task

/-- `task::resume` (`task.h:310`): resume the coroutine unless the task is
ready; report whether the task is still not ready afterwards. -/
def resume (h : Option (TaskCoro α)) : Bool × Option (TaskCoro α) :=
  match h with
  | some c =>
    if c.done then (false, some c)
    else
      let c1 := c.resumeStep
      (!c1.done, some c1)
  | none => (false, none)

/-- `task::resume` applied `n` times. -/
def resumeN : Nat → Option (TaskCoro α) → Option (TaskCoro α)
  | 0, h => h
  | n + 1, h => (resume (resumeN n h)).2

/-- `task<T>::result_value` for a non-void, non-reference `T`
(`task.h:367` composed with `promise_type<T>::result_value`, `task.h:140`):
`detail::check_coroutine` (`detail.h:72`) throws `bad_task` on a null handle;
then `promise_base::rethrow_if_exception` (`task.h:73`) rethrows a stored
exception — note it does *not* move from `m_exception`, so the exception
stays stored; then the stored result is returned, or `bad_result_access` is
thrown if it was never set.  Returns (observation, frame state afterwards). -/
def result_value (h : Option (TaskCoro α)) : Except Err α × Option (TaskCoro α) :=
  match h with
  | none => (.error .badTask, none)
  | some c =>
    match c.m_exception with
    | some e => (.error (.bodyExn e), some c)
    | none =>
      match c.m_result with
      | some v => (.ok v, some c)
      | none => (.error .resultNotAvailable, some c)

/-- `task<void>::result_value` (`task.h:367` composed with
`promise_type<void>::result_value`, `task.h:176`): `check_coroutine`, then
only `rethrow_if_exception` — the `void` specialisation performs no
result-availability check. -/
def result_value_void (h : Option (TaskCoro Unit)) :
    Except Err Unit × Option (TaskCoro Unit) :=
  match h with
  | none => (.error .badTask, none)
  | some c =>
    match c.m_exception with
    | some e => (.error (.bodyExn e), some c)
    | none => (.ok (), some c)

end task

/-! ## Asynchronous generator (`async_generator.h`) -/

/-- State of an `async_generator` coroutine frame together with its
`async_generator::promise_type` (`async_generator.h:53`). -/
structure AsyncCoro (α : Type) where
  /-- Values the body has yet to yield. -/
  yields : List α
  /-- After the yields are exhausted the body returns (`none`) or throws. -/
  tail : Option Exn
  /-- `promise_type::m_current_value` (`async_generator.h:215`). -/
  m_current_value : Option α := none
  /-- `promise_type::m_exception` (`async_generator.h:219`). -/
  m_exception : Option Exn := none
  /-- `coroutine_handle::done()`. -/
  done : Bool := false
  /-- Number of body segments executed so far (side-effect observer). -/
  stepsRun : Nat := 0
deriving DecidableEq

/-- Invoking an async-generator coroutine function: the frame is created
suspended at the initial suspend point (`initial_suspend` returns
`std::suspend_always`, `async_generator.h:98`); no body statement has run. -/
def mkAsyncGenerator (yields : List α) (tail : Option Exn) : AsyncCoro α :=
  { yields := yields, tail := tail }

/-- `detail::is_good_handle` (`detail.h:43`) on an async-generator handle. -/
def async_is_good_handle : Option (AsyncCoro α) → Bool
  | some c => !c.done
  | none => false

/-- `coroutine_handle::resume()` on the producer: run the body to the next
`co_yield` — `yield_value` stores the address of the value
(`async_generator.h:143`) and the returned `yield_op` transfers control back
to the consumer — or to completion: `unhandled_exception` stores the
exception (`async_generator.h:123`) and `final_suspend` nulls
`m_current_value` (`async_generator.h:109`) before handing control back. -/
def AsyncCoro.resume (c : AsyncCoro α) : AsyncCoro α :=
  match c.yields with
  | v :: rest =>
    { c with yields := rest, m_current_value := some v, stepsRun := c.stepsRun + 1 }
  | [] =>
    { c with
      done := true, m_current_value := none, m_exception := c.tail
      stepsRun := c.stepsRun + 1 }

/-- `promise_type::rethrow_if_unhandled_exception` (`async_generator.h:196`):
rethrows `std::move(m_exception)`, leaving the stored pointer null. -/
def AsyncCoro.rethrow_if_unhandled_exception (c : AsyncCoro α) :
    Option Exn × AsyncCoro α :=
  match c.m_exception with
  | some e => (some e, { c with m_exception := none })
  | none => (none, c)

namespace async_generator

/-- `async_generator::begin` (`async_generator.h:573`): an empty
`advance_op` when the handle is not good, otherwise an `advance_op`
referencing the producer frame.  An `advance_op` is represented by the frame
its `m_promise` points at (`none` for the empty op). -/
def begin (h : Option (AsyncCoro α)) : Option (AsyncCoro α) :=
  if async_is_good_handle h then h else none

/-- `async_generator::iterator::operator++` (`async_generator.h:421`): a new
`advance_op` on the producer handle if it is good, otherwise
`bad_result_access` is thrown. -/
def iterInc (h : Option (AsyncCoro α)) : Except Err (Option (AsyncCoro α)) :=
  if async_is_good_handle h then .ok h else .error .resultNotAvailable

/-- `async_generator::iterator::operator*` (`async_generator.h:439`): return
`promise().value()` if the handle is good, else throw `bad_result_access`.
Returns (exception thrown, value read). -/
def iterDeref (h : Option (AsyncCoro α)) : Option Err × Option α :=
  match h with
  | some c =>
    if c.done then (some .resultNotAvailable, none)
    else (none, c.m_current_value)
  | none => (some .resultNotAvailable, none)

end async_generator

/-- Awaiting an `advance_op` with a synchronously-driven consumer
(`advance_op::await_ready` / `await_suspend` / `await_resume`,
`async_generator.h:330/340/362`): the empty op resolves immediately to a
sentinel iterator; otherwise control transfers to the producer for one
production step, after which `await_resume` rethrows the exception of a
finished producer (via `rethrow_if_unhandled_exception`) and resolves to a
sentinel, or resolves to an iterator wrapping the producer frame.  Returns
(exception rethrown, producer frame afterwards, whether the resolved
iterator wraps the producer (`true`) rather than being a sentinel). -/
def advance_op.await (op : Option (AsyncCoro α)) :
    Option Exn × Option (AsyncCoro α) × Bool :=
  match op with
  | none => (none, none, false)
  | some c =>
    let c1 := c.resume
    if c1.m_current_value.isNone then
      let p := c1.rethrow_if_unhandled_exception
      (p.1, some p.2, false)
    else (none, some c1, true)

/-! ## Synchronous adapter (`sync_generator_adapter.h`)

`sync_generator_adapter::iterator::advance`
(`sync_generator_adapter.h:161`) awaits the stored `advance_op` inside an
immediately-started `eager_task` (`initial_suspend` returns
`std::suspend_never`, `eager_task.h:88`), so each synchronous advance drives
the awaited `advance_op` to completion before returning. -/

namespace sync_adapter

/-- `sync_generator_adapter::begin` (`sync_generator_adapter.h:207`):
constructs an `iterator` from `m_gen.begin()`; the iterator constructor
(`sync_generator_adapter.h:70`) immediately calls `advance()`, which awaits
the `advance_op` through an eager task.  Returns (exception, producer frame
afterwards, whether the resolved inner iterator is live). -/
def begin (h : Option (AsyncCoro α)) : Option Exn × Option (AsyncCoro α) × Bool :=
  advance_op.await (async_generator.begin h)

/-- Range-for iteration over the adapter: `begin()` resolved the first
`advance_op`; each `operator++` re-awaits the stored `advance_op` (which
references the producer frame) and the loop stops once the resolved inner
iterator is a sentinel (adapter iterator equality,
`sync_generator_adapter.h:148`, compares the wrapped `async_generator`
iterators, and `end()` wraps a null one).  `fuel` bounds the number of
pulls; bodies without exceptions are iterated. -/
def toList (fuel : Nat) (op : Option (AsyncCoro α)) : List α :=
  match fuel with
  | 0 => []
  | fuel + 1 =>
    let r := advance_op.await op
    if r.2.2 then
      match r.2.1 with
      | some c =>
        match c.m_current_value with
        | some v => v :: toList fuel r.2.1
        | none => []
      | none => []
    else []

end sync_adapter

/-! ## Handle identity (`operator==` on iterators)

`iterator::operator==` compares `std::coroutine_handle`s by address.  To
state equality claims, frames are given identities in a store mapping frame
ids to live frames; destroying a frame removes it from the store.  A handle
is `some i` (address `i`) or `none` (null). -/

/-- A store of coroutine frames addressed by ids. -/
abbrev Store (F : Type) := Nat → Option F

/-- `coroutine_handle::destroy()` on an optional handle (guarded by
`if (m_coroutine)` at every call site, e.g. `task.h:261`,
`generator.h:372`). -/
def Store.destroy (σ : Store F) (h : Option Nat) : Store F :=
  match h with
  | some i => fun j => if j = i then none else σ j
  | none => σ

/-- `detail::is_good_handle` (`detail.h:43`) on a frame reference: the id
maps to a live frame that is not done. -/
def Store.isGoodRef (done : F → Bool) (σ : Store F) : Option Nat → Bool
  | some i =>
    match σ i with
    | some c => !done c
    | none => false
  | none => false

/-- `generator::iterator::operator==` (`generator.h:256`): the handles are
address-equal, or both are not good. -/
def generator.iterEq (σ : Store (GenCoro α)) (a b : Option Nat) : Bool :=
  a == b || (!(σ.isGoodRef GenCoro.done a) && !(σ.isGoodRef GenCoro.done b))

/-- `async_generator::iterator::operator==` (`async_generator.h:480`): the
handles are address-equal, or both are not good. -/
def async_generator.iterEq (σ : Store (AsyncCoro α)) (a b : Option Nat) : Bool :=
  a == b || (!(σ.isGoodRef AsyncCoro.done a) && !(σ.isGoodRef AsyncCoro.done b))

/-- `task::operator=(task&&)` (`task.h:258`) and
`generator::operator=(generator&&)` (`generator.h:369`) when the operands
are distinct objects: destroy the frame currently owned by the target, then
take the source's handle via `std::exchange(other.m_coroutine, nullptr)`.
Returns (store afterwards, target's handle afterwards, source's handle
afterwards). -/
def coro_move_assign (σ : Store F) (tgt src : Option Nat) :
    Store F × Option Nat × Option Nat :=
  (σ.destroy tgt, src, none)

/-- `task::operator=(task&&)` / `generator::operator=(generator&&)` when
source and target are the same object: the
`this != std::addressof(other)` guard (`task.h:260`, `generator.h:371`)
makes the assignment a no-op. -/
def coro_move_assign_self (σ : Store F) (t : Option Nat) :
    Store F × Option Nat :=
  (σ, t)

/-- `task::task(task&&)` (`task.h:248`) and `generator::generator(generator&&)`
(`generator.h:339`): the new object takes the source's handle; the source is
left with a null handle.  Returns (new object's handle, source's handle). -/
def coro_move_ctor (src : Option Nat) : Option Nat × Option Nat :=
  (src, none)

/-- `task::is_ready` (`task.h:293`) on a frame reference: null handle or
done frame.  A reference into the store is ready iff it is not good. -/
def task_is_ready_ref (σ : Store (TaskCoro α)) (h : Option Nat) : Bool :=
  !(σ.isGoodRef TaskCoro.done h)

/-! ## Theorems -/

/-- One `generator::advance` on a live frame with a pending yield pops
exactly that yield. -/
theorem generator.advance_cons (c : GenCoro α) (v : α) (rest : List α)
    (hdone : c.done = false) (hy : c.yields = v :: rest) :
    generator.advance (some c)
      = (none, some { c with yields := rest, m_value := some v, stepsRun := c.stepsRun + 1 }) := by
  simp [generator.advance, GenCoro.resume, hdone, hy]

/-- Iterating a generator over a body that yields `vals` and then returns
normally produces exactly `vals`. -/
theorem genToList_yields : ∀ (vals : List α) (c : GenCoro α),
    c.done = false → c.yields = vals → c.tail = none →
    generator.toList (vals.length + 1) (some c) = vals := by
  intro vals
  induction vals with
  | nil =>
    intro c hdone hy ht
    simp [generator.toList, generator.advance, GenCoro.resume, hdone, hy, ht,
      GenCoro.rethrow_if_exception]
  | cons v rest ih =>
    intro c hdone hy ht
    have h2 := ih { c with yields := rest, m_value := some v, stepsRun := c.stepsRun + 1 }
      hdone rfl ht
    rw [List.length_cons, generator.toList, generator.advance_cons c v rest hdone hy]
    simpa [hdone] using h2

/-- Driving one `advance_op` over a live async frame with a pending yield
pops exactly that yield and resolves to a live iterator. -/
theorem advance_op.await_cons (c : AsyncCoro α) (v : α) (rest : List α)
    (_hdone : c.done = false) (hy : c.yields = v :: rest) :
    advance_op.await (some c)
      = (none, some { c with yields := rest, m_current_value := some v, stepsRun := c.stepsRun + 1 }, true) := by
  simp [advance_op.await, AsyncCoro.resume, hy]

/-- Iterating the synchronous adapter over an async body that yields `vals`
and then returns normally produces exactly `vals`. -/
theorem adapterToList_yields : ∀ (vals : List α) (c : AsyncCoro α),
    c.done = false → c.yields = vals → c.tail = none →
    sync_adapter.toList (vals.length + 1) (some c) = vals := by
  intro vals
  induction vals with
  | nil =>
    intro c _hdone hy ht
    simp [sync_adapter.toList, advance_op.await, AsyncCoro.resume, hy, ht,
      AsyncCoro.rethrow_if_unhandled_exception]
  | cons v rest ih =>
    intro c hdone hy ht
    have h2 := ih { c with yields := rest, m_current_value := some v, stepsRun := c.stepsRun + 1 }
      hdone rfl ht
    rw [List.length_cons, sync_adapter.toList, advance_op.await_cons c v rest hdone hy]
    simpa using h2

/-- C3: each call to `generator::begin` advances the computation by exactly
one step from its current position (it never restarts), and for a generator
yielding 0,1,2,3,4, the initial `begin()` positions the iterator at 0 and
the repeated `begin()` calls that replace increments deliver 1,2,3,4 and hit
the end iterator at exactly the 5th such call (the 6th `begin()` overall). -/
theorem generator_begin_advances_one_step :
    (∀ (c : GenCoro Nat) (v : Nat) (rest : List Nat),
      c.done = false → c.yields = v :: rest →
      generator.advance (some c)
        = (none, some { c with yields := rest, m_value := some v, stepsRun := c.stepsRun + 1 }))
    ∧ (let h0 : Option (GenCoro Nat) := some (mkGenerator [0, 1, 2, 3, 4] none)
      (generator.iterDeref (generator.beginN 1 h0) = (none, some 0)
          ∧ generator.iterIsEnd (generator.beginN 1 h0) = false)
        ∧ generator.iterDeref (generator.beginN 2 h0) = (none, some 1)
        ∧ generator.iterDeref (generator.beginN 3 h0) = (none, some 2)
        ∧ generator.iterDeref (generator.beginN 4 h0) = (none, some 3)
        ∧ (generator.iterDeref (generator.beginN 5 h0) = (none, some 4)
          ∧ generator.iterIsEnd (generator.beginN 5 h0) = false)
        ∧ generator.iterIsEnd (generator.beginN 6 h0) = true) := by
  constructor
  · intro c v rest hdone hy
    exact generator.advance_cons c v rest hdone hy
  · decide

/-- Witness for C3: the general step lemma evaluated on a concrete frame. -/
theorem generator_begin_advances_one_step_witness :
    generator.advance (some (mkGenerator [7, 8] none : GenCoro Nat))
      = (none, some { yields := [8], tail := none, m_value := some 7, m_exception := none, done := false, stepsRun := 1 }) :=
  generator_begin_advances_one_step.1 (mkGenerator [7, 8] none) 7 [8] rfl rfl

/-- C4: Task, Generator, and AsyncGenerator values are lazy: at construction
no body segment has executed, no value or result is stored, and the frame is
not done; the side-effect counter first moves on the first resume. -/
theorem construction_is_lazy :
    ∀ (yields : List Nat) (tail : Option Exn) (ps : Nat) (outcome : Except Exn Nat),
      ((mkGenerator yields tail).stepsRun = 0 ∧ (mkGenerator yields tail).m_value = none
        ∧ (mkGenerator yields tail).m_exception = none ∧ (mkGenerator yields tail).done = false)
      ∧ ((mkTask ps outcome).stepsRun = 0 ∧ (mkTask ps outcome).m_result = none
        ∧ (mkTask ps outcome).m_exception = none ∧ (mkTask ps outcome).done = false)
      ∧ ((mkAsyncGenerator yields tail).stepsRun = 0
        ∧ (mkAsyncGenerator yields tail).m_current_value = none
        ∧ (mkAsyncGenerator yields tail).m_exception = none
        ∧ (mkAsyncGenerator yields tail).done = false)
      ∧ ((GenCoro.resume (mkGenerator yields tail)).stepsRun = 1
        ∧ (TaskCoro.resumeStep (mkTask ps outcome)).stepsRun = 1
        ∧ (AsyncCoro.resume (mkAsyncGenerator yields tail)).stepsRun = 1) := by
  intro yields tail ps outcome
  refine ⟨⟨rfl, rfl, rfl, rfl⟩, ⟨rfl, rfl, rfl, rfl⟩, ⟨rfl, rfl, rfl, rfl⟩, ?_, ?_, ?_⟩
  · cases yields <;> rfl
  · cases ps <;> rfl
  · cases yields <;> rfl

/-- C5: advancing an already-exhausted Generator leaves its frame untouched
(no resume, no exception) and `begin()` yields an iterator equal to `end()`;
`begin()` on an exhausted AsyncGenerator returns the empty advance operation,
which resolves to a sentinel iterator without touching the producer. -/
theorem exhausted_begin_is_end_no_effects :
    (∀ c : GenCoro Nat, c.done = true →
      generator.advance (some c) = (none, some c)
      ∧ generator.iterIsEnd (some c) = true)
    ∧ (∀ c : AsyncCoro Nat, c.done = true →
      async_generator.begin (some c) = none
      ∧ advance_op.await (async_generator.begin (some c)) = (none, none, false)) := by
  constructor
  · intro c h
    refine ⟨by simp [generator.advance, h], by simp [generator.iterIsEnd, gen_is_good_handle, h]⟩
  · intro c h
    have hb : async_generator.begin (some c) = none := by
      simp [async_generator.begin, async_is_good_handle, h]
    exact ⟨hb, by rw [hb]; rfl⟩

/-- Witness for C5: a concrete exhausted generator and async generator. -/
theorem exhausted_begin_is_end_no_effects_witness :
    (generator.advance
        (some ({ yields := [], tail := none, done := true, stepsRun := 3 } : GenCoro Nat))
      = (none, some { yields := [], tail := none, done := true, stepsRun := 3 })
      ∧ generator.iterIsEnd
        (some ({ yields := [], tail := none, done := true, stepsRun := 3 } : GenCoro Nat)) = true)
    ∧ async_generator.begin
        (some ({ yields := [], tail := none, done := true, stepsRun := 2 } : AsyncCoro Nat)) = none :=
  ⟨exhausted_begin_is_end_no_effects.1
      { yields := [], tail := none, done := true, stepsRun := 3 } rfl,
    (exhausted_begin_is_end_no_effects.2
      { yields := [], tail := none, done := true, stepsRun := 2 } rfl).1⟩

/-- C7: incrementing or dereferencing a generator iterator whose handle is
empty or finished (including the `end()` iterator) throws
`bad_result_access`; incrementing a live iterator advances the frame by
exactly one step, rethrowing a failure raised during that step. -/
theorem generator_iterator_inc_deref :
    (∀ h : Option (GenCoro Nat), gen_is_good_handle h = false →
      generator.iterInc h = (some .resultNotAvailable, h)
      ∧ (generator.iterDeref h).1 = some .resultNotAvailable)
    ∧ (∀ (c : GenCoro Nat) (v : Nat) (rest : List Nat),
      c.done = false → c.yields = v :: rest →
      generator.iterInc (some c)
        = (none, some { c with yields := rest, m_value := some v, stepsRun := c.stepsRun + 1 }))
    ∧ (∀ c : GenCoro Nat, c.done = false → c.yields = [] →
      generator.iterInc (some c)
        = (Option.map Err.bodyExn c.tail,
          some { c with done := true, m_exception := none, stepsRun := c.stepsRun + 1 })) := by
  refine ⟨?_, ?_, ?_⟩
  · intro h hgood
    match h with
    | none => exact ⟨rfl, rfl⟩
    | some c =>
      have hc : c.done = true := by
        simpa [gen_is_good_handle] using hgood
      exact ⟨by simp [generator.iterInc, hc], by simp [generator.iterDeref, hc]⟩
  · intro c v rest hdone hy
    simp [generator.iterInc, GenCoro.resume, hdone, hy]
  · intro c hdone hy
    cases ht : c.tail with
    | none =>
      simp [generator.iterInc, GenCoro.resume, hdone, hy, ht,
        GenCoro.rethrow_if_exception]
    | some e =>
      simp [generator.iterInc, GenCoro.resume, hdone, hy, ht,
        GenCoro.rethrow_if_exception]

/-- Witness for C7: the `end()` iterator (null handle) and a live frame that
throws during the step. -/
theorem generator_iterator_inc_deref_witness :
    (generator.iterInc (none : Option (GenCoro Nat))
        = (some .resultNotAvailable, none)
      ∧ (generator.iterDeref (none : Option (GenCoro Nat))).1 = some .resultNotAvailable)
    ∧ generator.iterInc (some (mkGenerator [] (some 9) : GenCoro Nat))
        = (some (Err.bodyExn 9),
          some { yields := [], tail := some 9, m_value := none, m_exception := none, done := true, stepsRun := 1 }) :=
  ⟨generator_iterator_inc_deref.1 none rfl,
    generator_iterator_inc_deref.2.2 (mkGenerator [] (some 9)) rfl rfl⟩

/-- The handle-equality test used by both iterator `operator==`
implementations, characterised: it holds iff the handles are address-equal
or both are not good. -/
theorem iterEqRef_iff (done : F → Bool) (σ : Store F) (a b : Option Nat) :
    (a == b || (!(σ.isGoodRef done a) && !(σ.isGoodRef done b))) = true
      ↔ (a = b ∨ (σ.isGoodRef done a = false ∧ σ.isGoodRef done b = false)) := by
  simp [Bool.or_eq_true, Bool.and_eq_true, Bool.not_eq_true', beq_iff_eq]

/-- C6: generator and async-generator iterator equality holds iff the two
iterators reference the same coroutine frame or both hold a "not good"
(null or finished) handle; the relation is symmetric, and iterators over
two different, independently exhausted frames compare equal. -/
theorem iterator_equality_spec :
    (∀ (σ : Store (GenCoro Nat)) (a b : Option Nat),
      (generator.iterEq σ a b = true
        ↔ (a = b ∨ (σ.isGoodRef GenCoro.done a = false ∧ σ.isGoodRef GenCoro.done b = false)))
      ∧ generator.iterEq σ a b = generator.iterEq σ b a)
    ∧ (∀ (σ : Store (AsyncCoro Nat)) (a b : Option Nat),
      (async_generator.iterEq σ a b = true
        ↔ (a = b ∨ (σ.isGoodRef AsyncCoro.done a = false ∧ σ.isGoodRef AsyncCoro.done b = false)))
      ∧ async_generator.iterEq σ a b = async_generator.iterEq σ b a)
    ∧ (∀ (σ : Store (GenCoro Nat)) (i j : Nat) (ci cj : GenCoro Nat),
      i ≠ j → σ i = some ci → σ j = some cj → ci.done = true → cj.done = true →
      generator.iterEq σ (some i) (some j) = true) := by
  refine ⟨?_, ?_, ?_⟩
  · intro σ a b
    refine ⟨iterEqRef_iff GenCoro.done σ a b, ?_⟩
    rw [Bool.eq_iff_iff, generator.iterEq, generator.iterEq,
      iterEqRef_iff GenCoro.done σ a b, iterEqRef_iff GenCoro.done σ b a]
    constructor
    · rintro (rfl | ⟨h1, h2⟩)
      · exact Or.inl rfl
      · exact Or.inr ⟨h2, h1⟩
    · rintro (rfl | ⟨h1, h2⟩)
      · exact Or.inl rfl
      · exact Or.inr ⟨h2, h1⟩
  · intro σ a b
    refine ⟨iterEqRef_iff AsyncCoro.done σ a b, ?_⟩
    rw [Bool.eq_iff_iff, async_generator.iterEq, async_generator.iterEq,
      iterEqRef_iff AsyncCoro.done σ a b, iterEqRef_iff AsyncCoro.done σ b a]
    constructor
    · rintro (rfl | ⟨h1, h2⟩)
      · exact Or.inl rfl
      · exact Or.inr ⟨h2, h1⟩
    · rintro (rfl | ⟨h1, h2⟩)
      · exact Or.inl rfl
      · exact Or.inr ⟨h2, h1⟩
  · intro σ i j ci cj _hij hσi hσj hci hcj
    simp [generator.iterEq, Store.isGoodRef, hσi, hσj, hci, hcj]

/-- Witness for C6: two distinct frame ids, each mapped to an exhausted
frame from a different generator body, compare equal. -/
theorem iterator_equality_spec_witness :
    generator.iterEq
      (fun i => if i = 0 then some ({ yields := [], tail := none, done := true } : GenCoro Nat)
        else if i = 1 then some ({ yields := [], tail := none, done := true, stepsRun := 4 } : GenCoro Nat)
        else none)
      (some 0) (some 1) = true :=
  iterator_equality_spec.2.2
    (fun i => if i = 0 then some { yields := [], tail := none, done := true }
      else if i = 1 then some { yields := [], tail := none, done := true, stepsRun := 4 }
      else none)
    0 1 { yields := [], tail := none, done := true }
    { yields := [], tail := none, done := true, stepsRun := 4 }
    (by decide) rfl rfl rfl rfl

/-- C8: moving from a Task or Generator leaves the moved-from object with a
null handle, which reports ready (Task) resp. yields the end iterator and
cannot observe results; self-move-assignment is a no-op; move-assignment
from a different object removes the frame the target previously owned from
the store while preserving the source's frame, whose ownership passes to the
target. -/
theorem move_semantics_ownership :
    (∀ (σ : Store (TaskCoro Nat)) (i j : Nat), i ≠ j →
      (coro_move_assign σ (some i) (some j)).2.1 = some j
      ∧ (coro_move_assign σ (some i) (some j)).2.2 = none
      ∧ (coro_move_assign σ (some i) (some j)).1 i = none
      ∧ (coro_move_assign σ (some i) (some j)).1 j = σ j
      ∧ task_is_ready_ref (coro_move_assign σ (some i) (some j)).1
          (coro_move_assign σ (some i) (some j)).2.2 = true)
    ∧ (∀ (σ : Store (TaskCoro Nat)) (t : Option Nat), coro_move_assign_self σ t = (σ, t))
    ∧ (∀ src : Option Nat, coro_move_ctor src = (src, none))
    ∧ (task.result_value (none : Option (TaskCoro Nat)) = (.error .badTask, none)
      ∧ task_is_ready (none : Option (TaskCoro Nat)) = true)
    ∧ (∀ (σ : Store (GenCoro Nat)) (i j : Nat), i ≠ j →
      (coro_move_assign σ (some i) (some j)).1 i = none
      ∧ (coro_move_assign σ (some i) (some j)).1 j = σ j
      ∧ (coro_move_assign σ (some i) (some j)).2.2 = none)
    ∧ (generator.advance (none : Option (GenCoro Nat)) = (none, none)
      ∧ generator.iterIsEnd (none : Option (GenCoro Nat)) = true) := by
  refine ⟨?_, fun σ t => rfl, fun src => rfl, ⟨rfl, rfl⟩, ?_, ⟨rfl, rfl⟩⟩
  · intro σ i j hij
    refine ⟨rfl, rfl, ?_, ?_, rfl⟩
    · simp [coro_move_assign, Store.destroy]
    · simp [coro_move_assign, Store.destroy, hij.symm]
  · intro σ i j hij
    refine ⟨?_, ?_, rfl⟩
    · simp [coro_move_assign, Store.destroy]
    · simp [coro_move_assign, Store.destroy, hij.symm]

/-- C1 counterexample: a Task whose body throws rethrows the stored failure
on every result observation, not exactly once: after the first observation
has rethrown the failure, observing the same task again rethrows it again
(`promise_base::rethrow_if_exception` does not consume `m_exception`). -/
theorem task_rethrows_failure_again_counterexample :
    (task.result_value ((task.resume (some (mkTask 0 (Except.error 3) : TaskCoro Nat))).2)).1
      = Except.error (Err.bodyExn 3)
    ∧ (task.result_value
        ((task.result_value ((task.resume (some (mkTask 0 (Except.error 3) : TaskCoro Nat))).2)).2)).1
      = Except.error (Err.bodyExn 3) := by
  decide

/-- C1 (amended): failures escaping a body are stored at the point of the
unhandled failure.  A Generator or AsyncGenerator rethrows the stored
failure exactly once, at the advance that finishes the frame, consuming it;
every later advance performs no resume and rethrows nothing, and
incrementing the finished iterator throws `bad_result_access` instead.  A
Task rethrows the stored failure at the next result observation but does
not consume it, so every further observation rethrows it again. -/
theorem failure_stored_and_rethrown_amended :
    (∀ (c : GenCoro Nat) (e : Exn), c.done = false → c.yields = [] → c.tail = some e →
      generator.advance (some c)
        = (some e, some { c with done := true, m_exception := none, stepsRun := c.stepsRun + 1 })
      ∧ generator.advance (some { c with done := true, m_exception := none, stepsRun := c.stepsRun + 1 })
        = (none, some { c with done := true, m_exception := none, stepsRun := c.stepsRun + 1 })
      ∧ generator.iterInc (some { c with done := true, m_exception := none, stepsRun := c.stepsRun + 1 })
        = (some .resultNotAvailable, some { c with done := true, m_exception := none, stepsRun := c.stepsRun + 1 }))
    ∧ (∀ (c : AsyncCoro Nat) (e : Exn), c.done = false → c.yields = [] → c.tail = some e →
      advance_op.await (some c)
        = (some e, some { c with done := true, m_current_value := none, m_exception := none, stepsRun := c.stepsRun + 1 }, false)
      ∧ advance_op.await (async_generator.begin (some { c with done := true, m_current_value := none, m_exception := none, stepsRun := c.stepsRun + 1 }))
        = (none, none, false)
      ∧ async_generator.iterInc (some { c with done := true, m_current_value := none, m_exception := none, stepsRun := c.stepsRun + 1 })
        = .error .resultNotAvailable)
    ∧ (∀ (c : TaskCoro Nat) (e : Exn), c.pendingSteps = 0 → c.outcome = .error e → c.done = false →
      c.resumeStep.m_exception = some e
      ∧ (task.result_value (some c.resumeStep)).1 = .error (.bodyExn e)
      ∧ (task.result_value (some c.resumeStep)).2 = some c.resumeStep
      ∧ (task.result_value ((task.result_value (some c.resumeStep)).2)).1 = .error (.bodyExn e)) := by
  refine ⟨?_, ?_, ?_⟩
  · intro c e hdone hy ht
    refine ⟨?_, ?_, ?_⟩
    · simp [generator.advance, GenCoro.resume, hdone, hy, ht, GenCoro.rethrow_if_exception]
    · simp [generator.advance]
    · simp [generator.iterInc]
  · intro c e _hdone hy ht
    refine ⟨?_, ?_, ?_⟩
    · simp [advance_op.await, AsyncCoro.resume, hy, ht, AsyncCoro.rethrow_if_unhandled_exception]
    · simp [advance_op.await, async_generator.begin, async_is_good_handle]
    · simp [async_generator.iterInc, async_is_good_handle]
  · intro c e hps ho _hdone
    have h1 : c.resumeStep
        = { c with done := true, stepsRun := c.stepsRun + 1, m_result := none, m_exception := some e } := by
      simp [TaskCoro.resumeStep, hps, ho]
    exact ⟨by simp [h1], by simp [h1, task.result_value],
      by simp [h1, task.result_value], by simp [h1, task.result_value]⟩

/-- Witness for C1 (amended): a generator body that throws 5 before any
yield, and a task body that throws 2. -/
theorem failure_stored_and_rethrown_amended_witness :
    generator.advance (some (mkGenerator [] (some 5) : GenCoro Nat))
      = (some 5, some { yields := [], tail := some 5, m_value := none, m_exception := none, done := true, stepsRun := 1 })
    ∧ (task.result_value (some (TaskCoro.resumeStep (mkTask 0 (Except.error 2) : TaskCoro Nat)))).1
      = .error (.bodyExn 2) :=
  ⟨(failure_stored_and_rethrown_amended.1 (mkGenerator [] (some 5)) 5 rfl rfl rfl).1,
    (failure_stored_and_rethrown_amended.2.2 (mkTask 0 (Except.error 2)) 2 rfl rfl rfl).2.1⟩

/-- C2 counterexample: an unfinished `task<void>` (one pending internal
suspension, never resumed) is not ready, yet `result_value` returns
normally instead of raising `bad_result_access`. -/
theorem void_task_result_before_finish_counterexample :
    task_is_ready (some (mkTask 1 (Except.ok ()) : TaskCoro Unit)) = false
    ∧ (task.result_value_void (some (mkTask 1 (Except.ok ()) : TaskCoro Unit))).1 = Except.ok () := by
  decide

/-- `task::resume` steps starting from a fresh frame never set `m_result` or
`m_exception` before the frame is done. -/
theorem task.resumeN_unfinished : ∀ (n ps : Nat) (o : Except Exn α) (c : TaskCoro α),
    task.resumeN n (some (mkTask ps o)) = some c → c.done = false →
    c.m_result = none ∧ c.m_exception = none := by
  intro n
  induction n with
  | zero =>
    intro ps o c h _hdone
    injection h with h
    subst h
    exact ⟨rfl, rfl⟩
  | succ n ih =>
    intro ps o c h hdone
    rw [task.resumeN] at h
    cases hn : task.resumeN n (some (mkTask ps o)) with
    | none =>
      rw [hn] at h
      simp [task.resume] at h
    | some c0 =>
      rw [hn] at h
      by_cases hd : c0.done = true
      · have hcc : c0 = c := by simpa [task.resume, hd] using h
        exact absurd (hcc ▸ hd) (by simp [hdone])
      · have hd' : c0.done = false := by simpa using hd
        have hinv := ih ps o c0 hn hd'
        have hc : c0.resumeStep = c := by simpa [task.resume, hd'] using h
        subst hc
        cases hps : c0.pendingSteps with
        | zero => simp [TaskCoro.resumeStep, hps] at hdone
        | succ m =>
          constructor <;> simp [TaskCoro.resumeStep, hps, hinv.1, hinv.2]

/-- C2 (amended): `task<T>::result_value` throws `bad_task` on an empty
handle; for non-void `T` it throws `bad_result_access` while the
computation is unfinished, rethrows a stored failure, and otherwise returns
the produced value.  For `task<void>` it throws `bad_task` on an empty
handle and rethrows a stored failure, but performs no availability check:
on an unfinished void task it returns normally. -/
theorem task_result_value_amended :
    (task.result_value (none : Option (TaskCoro Nat)) = (.error .badTask, none))
    ∧ (∀ (ps : Nat) (o : Except Exn Nat) (n : Nat) (c : TaskCoro Nat),
      task.resumeN n (some (mkTask ps o)) = some c → c.done = false →
      (task.result_value (some c)).1 = .error .resultNotAvailable)
    ∧ (∀ (c : TaskCoro Nat) (v : Nat), c.m_exception = none → c.m_result = some v →
      (task.result_value (some c)).1 = .ok v)
    ∧ (∀ (c : TaskCoro Nat) (e : Exn), c.m_exception = some e →
      (task.result_value (some c)).1 = .error (.bodyExn e))
    ∧ (task.result_value_void (none : Option (TaskCoro Unit)) = (.error .badTask, none))
    ∧ (∀ (c : TaskCoro Unit) (e : Exn), c.m_exception = some e →
      (task.result_value_void (some c)).1 = .error (.bodyExn e))
    ∧ (∀ c : TaskCoro Unit, c.m_exception = none →
      (task.result_value_void (some c)).1 = .ok ()) := by
  refine ⟨rfl, ?_, ?_, ?_, rfl, ?_, ?_⟩
  · intro ps o n c h hdone
    obtain ⟨hr, he⟩ := task.resumeN_unfinished n ps o c h hdone
    simp [task.result_value, hr, he]
  · intro c v he hr
    simp [task.result_value, he, hr]
  · intro c e he
    simp [task.result_value, he]
  · intro c e he
    simp [task.result_value_void, he]
  · intro c he
    simp [task.result_value_void, he]

/-- Witness for C2 (amended): a non-void task with two pending suspensions,
resumed once, is unfinished and reports `bad_result_access`. -/
theorem task_result_value_amended_witness :
    (task.result_value (some ({ pendingSteps := 1, outcome := Except.ok 5, stepsRun := 1 } : TaskCoro Nat))).1
      = Except.error Err.resultNotAvailable :=
  task_result_value_amended.2.1 2 (Except.ok 5) 1
    { pendingSteps := 1, outcome := Except.ok 5, stepsRun := 1 } rfl rfl

/-- C9: iterating a Generator yielding a finite sequence and iterating a
SyncGeneratorAdapter wrapping an AsyncGenerator yielding the same sequence
produce identical output sequences, in particular for the 10-term Fibonacci
sequence 0,1,1,2,3,5,8,13,21,34. -/
theorem adapter_generator_equivalence :
    ∀ vals : List Nat,
      sync_adapter.toList (vals.length + 1)
          (async_generator.begin (some (mkAsyncGenerator vals none)))
        = generator.toList (vals.length + 1) (some (mkGenerator vals none))
      ∧ generator.toList 11 (some (mkGenerator [0, 1, 1, 2, 3, 5, 8, 13, 21, 34] none))
        = [0, 1, 1, 2, 3, 5, 8, 13, 21, 34]
      ∧ sync_adapter.toList 11
          (async_generator.begin (some (mkAsyncGenerator [0, 1, 1, 2, 3, 5, 8, 13, 21, 34] none)))
        = [0, 1, 1, 2, 3, 5, 8, 13, 21, 34] := by
  intro vals
  have hb : async_generator.begin (some (mkAsyncGenerator vals none))
      = some (mkAsyncGenerator vals none) := rfl
  refine ⟨?_, by decide, by decide⟩
  rw [hb, adapterToList_yields vals _ rfl rfl rfl,
    genToList_yields vals _ rfl rfl rfl]

/-- C10: `sync_generator_adapter::begin` synchronously advances the wrapped
async generator by exactly one production step before returning (the
iterator constructor drives the advance operation through an eager task),
and repeated `begin()` calls each advance one step further rather than
restarting the sequence. -/
theorem adapter_begin_advances_one_step :
    (∀ (c : AsyncCoro Nat) (v : Nat) (rest : List Nat),
      c.done = false → c.yields = v :: rest →
      sync_adapter.begin (some c)
        = (none, some { c with yields := rest, m_current_value := some v, stepsRun := c.stepsRun + 1 }, true))
    ∧ (sync_adapter.begin (some (mkAsyncGenerator [10, 20] none : AsyncCoro Nat))
        = (none, some { yields := [20], tail := none, m_current_value := some 10, m_exception := none, done := false, stepsRun := 1 }, true)
      ∧ sync_adapter.begin (some ({ yields := [20], tail := none, m_current_value := some 10, m_exception := none, done := false, stepsRun := 1 } : AsyncCoro Nat))
        = (none, some { yields := [], tail := none, m_current_value := some 20, m_exception := none, done := false, stepsRun := 2 }, true)) := by
  constructor
  · intro c v rest hdone hy
    have hb : async_generator.begin (some c) = some c := by
      simp [async_generator.begin, async_is_good_handle, hdone]
    simp only [sync_adapter.begin]
    rw [hb]
    exact advance_op.await_cons c v rest hdone hy
  · exact ⟨by decide, by decide⟩

/-- Witness for C10: a concrete two-element async generator. -/
theorem adapter_begin_advances_one_step_witness :
    sync_adapter.begin (some (mkAsyncGenerator [3, 4] none : AsyncCoro Nat))
      = (none, some { yields := [4], tail := none, m_current_value := some 3, m_exception := none, done := false, stepsRun := 1 }, true) :=
  adapter_begin_advances_one_step.1 (mkAsyncGenerator [3, 4] none) 3 [4] rfl rfl

/-- Witness for C8: a concrete two-frame store. -/
theorem move_semantics_ownership_witness :
    (coro_move_assign (fun _ => some (mkTask 0 (Except.ok 0) : TaskCoro Nat)) (some 0) (some 1)).1 0 = none
    ∧ (coro_move_assign (fun _ => some (mkTask 0 (Except.ok 0) : TaskCoro Nat)) (some 0) (some 1)).2.2 = none :=
  ⟨(move_semantics_ownership.1 (fun _ => some (mkTask 0 (Except.ok 0))) 0 1 (by decide)).2.2.1,
    (move_semantics_ownership.1 (fun _ => some (mkTask 0 (Except.ok 0))) 0 1 (by decide)).2.1⟩

end CoroCpp
